import Mathlib

/-!
Shallow embedding of the ART array copy / allocation engine
(`src/runtime/native/java_lang_System.cc`,
`src/runtime/native/java_lang_reflect_Array.cc`).

Machine `jint` values are modelled as mathematical `Int`: in every executed
comparison of `System_arraycopy` the short-circuit order guarantees the
operands are in `jint` range, so no wrap-around is observable.
-/

namespace ArtArrayCopy

/-- `Primitive::Type` from the runtime: eight primitive kinds plus the
reference kind (`kPrimNot`) and `kPrimVoid`. -/
inductive PrimType
  | boolean
  | byte
  | char
  | short
  | int
  | float
  | long
  | double
  | not
  | void
deriving DecidableEq, Repr

/-- A `mirror::Class` as far as the copy engine observes it: its
`GetPrimitiveType()` tag and, for reference classes, a class identity used
by the assignability oracle. Pointer equality of classes is modelled as
structural equality. -/
structure ClassT where
  primType : PrimType
  classId : Nat
deriving DecidableEq, Repr

instance : Inhabited ClassT := ⟨⟨PrimType.not, 0⟩⟩

/-- `Class::IsPrimitive()`: `GetPrimitiveType() != kPrimNot`. -/
def ClassT.IsPrimitive (c : ClassT) : Bool :=
  c.primType ≠ PrimType.not

/-- An array element value: a null reference, a reference to an object whose
concrete runtime class is `cls`, or a raw primitive value. -/
inductive Val
  | vnull
  | vobj (cls : ClassT) (ident : Nat)
  | vprim (n : Int)
deriving DecidableEq, Repr

instance : Inhabited Val := ⟨Val.vnull⟩

/-- A heap object as decoded by the copy engine: a non-array instance
(`IsArrayInstance()` false) of some class, or an array instance with its
component type and element storage. -/
inductive Obj
  | scalar (cls : ClassT)
  | arr (compType : ClassT) (data : List Val)
deriving DecidableEq, Repr

instance : Inhabited Obj := ⟨Obj.scalar default⟩

/-- The managed heap: object handles are indices into this list. -/
abbrev Heap := List Obj

/-- The caller-visible failures of the copy engine, carrying the same
diagnostic data the C++ exception messages format. -/
inductive CopyError
  | nullPointer (msg : String)
  | notAnArray (identifier : String) (actualType : ClassT)
  | indexOutOfBounds (srcLen srcPos dstLen dstPos count : Int)
  | arrayStoreIncompatible (srcType dstType : ClassT)
  | arrayStoreElement (offendingType : ClassT)
  | fatalUnreachable
deriving DecidableEq, Repr

/-- Result of one `arraycopy` call: the pending exception (if any) and the
heap after the call. -/
structure CopyOutcome where
  error : Option CopyError
  heap : Heap
deriving DecidableEq, Repr

/-- `out[p + i] = seg[i]` for `i < seg.length`, other positions unchanged
(writes beyond the end of the list are dropped, as `List.set` does). -/
def writeRange (l : List Val) (p : Nat) : List Val → List Val
  | [] => l
  | x :: xs => writeRange (l.set p x) (p + 1) xs

/-- The `count` elements `l[p], l[p+1], ..., l[p+count-1]`. -/
def extract (l : List Val) (p : Nat) : Nat → List Val
  | 0 => []
  | k + 1 => l.getD p default :: extract l (p + 1) k

/-- Forward element-by-element in-place copy: for `i = 0, 1, ...` set
`l[d+i] := l[s+i]`, each read seeing the writes already performed. -/
def copyFwd (l : List Val) (d s : Nat) : Nat → List Val
  | 0 => l
  | k + 1 => copyFwd (l.set d (l.getD s default)) (d + 1) (s + 1) k

/-- Backward element-by-element in-place copy: for `i = count-1, ..., 0` set
`l[d+i] := l[s+i]`, each read seeing the writes already performed. -/
def copyBwd (l : List Val) (d s : Nat) : Nat → List Val
  | 0 => l
  | k + 1 => copyBwd (l.set (d + k) (l.getD (s + k) default)) d s k

/-- Modelled from the spec: `mirror::Array::Memmove` /
`mirror::ObjectArray::AssignableMemmove` (not under `src/`) perform an
overlap-safe bulk move of `count` elements; modelled as libc `memmove`, the
direction-dependent in-place loop (copy forward when the destination starts
at or before the source, backward otherwise). -/
def selfMemmove (l : List Val) (d s count : Nat) : List Val :=
  if d ≤ s then copyFwd l d s count else copyBwd l d s count

/-- Heap effect of `dstArray->Memmove(dstPos, srcArray, srcPos, count)`:
when source and destination are the same object the in-place overlap-safe
move runs on its storage; otherwise the destination range is overwritten
from the (disjoint) source storage. -/
def memmoveHeap (heap : Heap) (dstH : Nat) (dstCT : ClassT) (dstData : List Val)
    (srcH : Nat) (srcData : List Val) (dstPos srcPos count : Nat) : Heap :=
  if srcH = dstH then
    heap.set dstH (Obj.arr dstCT (selfMemmove dstData dstPos srcPos count))
  else
    heap.set dstH (Obj.arr dstCT (writeRange dstData dstPos (extract srcData srcPos count)))

/-- Runtime-type check performed on one element by the checked copy: null is
always storable; an object is storable iff its concrete class is assignable
to the destination component type. -/
def elemAssignable (asgn : ClassT → ClassT → Bool) (dstCT : ClassT) : Val → Bool
  | Val.vnull => true
  | Val.vobj cls _ => asgn dstCT cls
  | Val.vprim _ => false

/-- The concrete class reported for the element that failed the store check. -/
def Val.offendingClass : Val → ClassT
  | Val.vobj cls _ => cls
  | _ => default

/-- Modelled from the spec: `mirror::ObjectArray::AssignableCheckingMemcpy`
(not under `src/`): for `i` in `[0, count)` copy `src[srcPos+i]` into
`dst[dstPos+i]` only after its concrete runtime type passes the store check;
on the first failing element stop immediately, keeping the elements already
copied, and report the offending element's concrete class. -/
def assignableCheckingCopy (asgn : ClassT → ClassT → Bool) (dstCT : ClassT)
    (srcData dstData : List Val) (srcPos dstPos : Nat) :
    Nat → List Val × Option ClassT
  | 0 => (dstData, none)
  | k + 1 =>
    let v := srcData.getD srcPos default
    if elemAssignable asgn dstCT v then
      assignableCheckingCopy asgn dstCT srcData (dstData.set dstPos v)
        (srcPos + 1) (dstPos + 1) k
    else
      (dstData, some v.offendingClass)

/-- The dispatch of `System_arraycopy` after both arguments have been decoded
to arrays and the bounds check has passed (lines 91-165 of
`java_lang_System.cc`). -/
def arraycopyDispatch (asgn : ClassT → ClassT → Bool) (heap : Heap)
    (srcH dstH : Nat) (srcCT : ClassT) (srcData : List Val)
    (dstCT : ClassT) (dstData : List Val) (srcPos dstPos count : Int) :
    CopyOutcome :=
  let dstComponentPrimitiveType := dstCT.primType
  if srcCT = dstCT then
    match dstComponentPrimitiveType with
    | PrimType.void => ⟨some CopyError.fatalUnreachable, heap⟩
    | PrimType.boolean | PrimType.byte | PrimType.char | PrimType.short
    | PrimType.int | PrimType.float | PrimType.long | PrimType.double
    | PrimType.not =>
      ⟨none, memmoveHeap heap dstH dstCT dstData srcH srcData
        dstPos.toNat srcPos.toNat count.toNat⟩
  else if dstComponentPrimitiveType ≠ PrimType.not ∨ srcCT.IsPrimitive then
    ⟨some (CopyError.arrayStoreIncompatible srcCT dstCT), heap⟩
  else if asgn dstCT srcCT then
    ⟨none, heap.set dstH (Obj.arr dstCT
      (writeRange dstData dstPos.toNat (extract srcData srcPos.toNat count.toNat)))⟩
  else
    let r := assignableCheckingCopy asgn dstCT srcData dstData
      srcPos.toNat dstPos.toNat count.toNat
    ⟨r.2.map CopyError.arrayStoreElement, heap.set dstH (Obj.arr dstCT r.1)⟩

/-- `System_arraycopy` (`java_lang_System.cc`, lines 50-165): null checks,
array-instance checks, bounds check, then dispatch. `asgn` is the external
type registry's `IsAssignableFrom`. -/
def System_arraycopy (asgn : ClassT → ClassT → Bool) (heap : Heap)
    (javaSrc : Option Nat) (srcPos : Int) (javaDst : Option Nat) (dstPos : Int)
    (length : Int) : CopyOutcome :=
  let count := length
  match javaSrc with
  | none => ⟨some (CopyError.nullPointer "src == null"), heap⟩
  | some srcH =>
    match javaDst with
    | none => ⟨some (CopyError.nullPointer "dst == null"), heap⟩
    | some dstH =>
      match heap.getD srcH default with
      | Obj.scalar srcCls => ⟨some (CopyError.notAnArray "source" srcCls), heap⟩
      | Obj.arr srcCT srcData =>
        match heap.getD dstH default with
        | Obj.scalar dstCls => ⟨some (CopyError.notAnArray "destination" dstCls), heap⟩
        | Obj.arr dstCT dstData =>
          let srcLen : Int := srcData.length
          let dstLen : Int := dstData.length
          if srcPos < 0 ∨ dstPos < 0 ∨ count < 0 ∨
              srcPos > srcLen - count ∨ dstPos > dstLen - count then
            ⟨some (CopyError.indexOutOfBounds srcLen srcPos dstLen dstPos count), heap⟩
          else
            arraycopyDispatch asgn heap srcH dstH srcCT srcData dstCT dstData
              srcPos dstPos count

/-- `System_arraycopyTUnchecked<T, kPrimType>` (`java_lang_System.cc`, lines
174-187): decode both handles, cast to arrays and `Memmove`, with no
user-facing validation (the preconditions are `DCHECK`ed only). The
non-array case cannot arise under the `DCHECK`ed preconditions; it is
mapped to a no-op. -/
def System_arraycopyTUnchecked (heap : Heap) (javaSrc : Nat) (srcPos : Int)
    (javaDst : Nat) (dstPos : Int) (count : Int) : Heap :=
  match heap.getD javaSrc default, heap.getD javaDst default with
  | Obj.arr _ srcData, Obj.arr dstCT dstData =>
    memmoveHeap heap javaDst dstCT dstData javaSrc srcData
      dstPos.toNat srcPos.toNat count.toNat
  | _, _ => heap

/-- Result of `Array_createObjectArray`. -/
inductive CreateResult
  | negativeSize (length : Int)
  | resolveFailed
  | ok (a : Obj)
deriving DecidableEq, Repr

/-- `Array_createObjectArray` (`java_lang_reflect_Array.cc`, lines 53-75):
negative-length check, then resolution of the array class through the
external registry (`findArrayClass`), then allocation (`alloc`, zero-filled
by the external heap). A failed resolution propagates the registry's
failure and returns null. -/
def Array_createObjectArray (findArrayClass : ClassT → Option ClassT)
    (alloc : ClassT → Nat → Obj) (elementClass : ClassT) (length : Int) :
    CreateResult :=
  if length < 0 then
    CreateResult.negativeSize length
  else
    match findArrayClass elementClass with
    | none => CreateResult.resolveFailed
    | some arrayClass => CreateResult.ok (alloc arrayClass length.toNat)

/-- Follows the spec's words, for comparison with the code's move primitive:
copy the `count` source elements out to an independent temporary buffer,
then write the buffer into the destination range. -/
def tempBufferSelfCopy (a : List Val) (srcPos dstPos count : Nat) : List Val :=
  let tmp := extract a srcPos count
  writeRange a dstPos tmp

/-! ### Basic lemmas about the storage primitives -/

theorem getD_set_ne (l : List Val) (m n : Nat) (x : Val) (h : m ≠ n) :
    (l.set m x).getD n default = l.getD n default := by
  simp [List.getD_eq_getD_get?, List.get?_eq_getElem?, List.getElem?_set_ne h]

theorem length_writeRange (seg : List Val) (l : List Val) (p : Nat) :
    (writeRange l p seg).length = l.length := by
  induction seg generalizing l p with
  | nil => rfl
  | cons x xs ih => simp [writeRange, ih]

theorem writeRange_set_comm (seg : List Val) (l : List Val) (p m : Nat) (x : Val)
    (h : m < p ∨ p + seg.length ≤ m) :
    writeRange (l.set m x) p seg = (writeRange l p seg).set m x := by
  induction seg generalizing l p with
  | nil => rfl
  | cons a xs ih =>
    have hmp : m ≠ p := by simp at h; omega
    rw [writeRange, writeRange, List.set_comm _ _ _ hmp, ih]
    simp at h ⊢
    omega

theorem getD_writeRange_outside (seg : List Val) (l : List Val) (p n : Nat)
    (h : n < p ∨ p + seg.length ≤ n) :
    (writeRange l p seg).getD n default = l.getD n default := by
  induction seg generalizing l p with
  | nil => rfl
  | cons a xs ih =>
    rw [writeRange, ih]
    · exact getD_set_ne _ _ _ _ (by simp at h; omega)
    · simp at h ⊢; omega

theorem length_extract (l : List Val) (p k : Nat) : (extract l p k).length = k := by
  induction k generalizing p with
  | zero => rfl
  | succ k ih => simp [extract, ih]

theorem extract_set_outside (l : List Val) (p k m : Nat) (x : Val)
    (h : m < p ∨ p + k ≤ m) :
    extract (l.set m x) p k = extract l p k := by
  induction k generalizing p with
  | zero => rfl
  | succ k ih =>
    rw [extract, extract, getD_set_ne _ _ _ _ (by omega), ih _ (by omega)]

theorem extract_snoc (l : List Val) (p k : Nat) :
    extract l p (k + 1) = extract l p k ++ [l.getD (p + k) default] := by
  induction k generalizing p with
  | zero => simp [extract]
  | succ k ih =>
    rw [extract]
    rw [ih (p + 1)]
    have : p + 1 + k = p + (k + 1) := by omega
    rw [this]
    rfl

theorem writeRange_snoc (seg : List Val) (l : List Val) (p : Nat) (x : Val) :
    writeRange l p (seg ++ [x]) = (writeRange l p seg).set (p + seg.length) x := by
  induction seg generalizing l p with
  | nil => simp [writeRange]
  | cons a xs ih =>
    rw [List.cons_append, writeRange, writeRange, ih]
    have : p + 1 + xs.length = p + (a :: xs).length := by simp; omega
    rw [this]

/-! ### Overlap-safety of the direction-dependent in-place move -/

theorem copyFwd_eq (k : Nat) (l : List Val) (d s : Nat) (h : d ≤ s) :
    copyFwd l d s k = writeRange l d (extract l s k) := by
  induction k generalizing l d s with
  | zero => rfl
  | succ k ih =>
    rw [copyFwd, ih _ _ _ (by omega)]
    rw [extract_set_outside _ _ _ _ _ (Or.inl (by omega))]
    rfl

theorem copyBwd_eq (k : Nat) (l : List Val) (d s : Nat) (h : s < d) :
    copyBwd l d s k = writeRange l d (extract l s k) := by
  induction k generalizing l with
  | zero => rfl
  | succ k ih =>
    rw [copyBwd, ih _]
    rw [extract_set_outside _ _ _ _ _ (Or.inr (by omega))]
    rw [writeRange_set_comm _ _ _ _ _ (Or.inr (by rw [length_extract]))]
    rw [extract_snoc, writeRange_snoc, length_extract]

/-- The in-place `memmove` loop always produces the same contents as copying
the source range out to a temporary buffer first. -/
theorem selfMemmove_eq (l : List Val) (d s k : Nat) :
    selfMemmove l d s k = writeRange l d (extract l s k) := by
  unfold selfMemmove
  by_cases h : d ≤ s
  · rw [if_pos h, copyFwd_eq _ _ _ _ h]
  · rw [if_neg h, copyBwd_eq _ _ _ _ (by omega)]

/-! ### Heap helpers -/

theorem set_getD_self {α : Type} [Inhabited α] (l : List α) (n : Nat)
    (h : n < l.length) : l.set n (l.getD n default) = l := by
  apply List.ext_getElem?
  intro i
  by_cases hi : n = i
  · subst hi
    simp [List.getElem?_set_self, h, List.getElem?_eq_getElem h,
      List.getD_eq_getElem _ _ h]
  · simp [List.getElem?_set_ne hi]

theorem getD_arr_lt (heap : Heap) (n : Nat) (ct : ClassT) (data : List Val)
    (h : heap.getD n default = Obj.arr ct data) : n < heap.length := by
  by_contra hn
  rw [List.getD_eq_default _ _ (by omega)] at h
  exact Obj.noConfusion h

theorem getD_set_ne_heap (l : Heap) (m n : Nat) (x : Obj) (h : m ≠ n) :
    (l.set m x).getD n default = l.getD n default := by
  simp [List.getD_eq_getD_get?, List.get?_eq_getElem?, List.getElem?_set_ne h]

/-! ### Characterization of the element-wise checked copy -/

theorem assignableCheckingCopy_all_pass (asgn : ClassT → ClassT → Bool)
    (dstCT : ClassT) (srcData : List Val) (k : Nat) :
    ∀ (srcPos dstPos : Nat) (dstData : List Val),
    (∀ i < k, elemAssignable asgn dstCT (srcData.getD (srcPos + i) default) = true) →
    assignableCheckingCopy asgn dstCT srcData dstData srcPos dstPos k =
      (writeRange dstData dstPos (extract srcData srcPos k), none) := by
  induction k with
  | zero => intro srcPos dstPos dstData _; rfl
  | succ k ih =>
    intro srcPos dstPos dstData h
    have h0 : elemAssignable asgn dstCT (srcData.getD srcPos default) = true := by
      have := h 0 (by omega)
      simpa using this
    rw [assignableCheckingCopy]
    simp only [h0, if_true]
    rw [ih (srcPos + 1) (dstPos + 1) _ (fun i hi => by
      have := h (i + 1) (by omega)
      simpa [Nat.add_assoc, Nat.add_comm 1 i] using this)]
    rfl

theorem assignableCheckingCopy_fail (asgn : ClassT → ClassT → Bool)
    (dstCT : ClassT) (srcData : List Val) (k : Nat) :
    ∀ (srcPos dstPos : Nat) (dstData : List Val) (count : Nat), k < count →
    (∀ i < k, elemAssignable asgn dstCT (srcData.getD (srcPos + i) default) = true) →
    elemAssignable asgn dstCT (srcData.getD (srcPos + k) default) = false →
    assignableCheckingCopy asgn dstCT srcData dstData srcPos dstPos count =
      (writeRange dstData dstPos (extract srcData srcPos k),
       some (srcData.getD (srcPos + k) default).offendingClass) := by
  induction k with
  | zero =>
    intro srcPos dstPos dstData count hk _ hfail
    obtain ⟨c, rfl⟩ : ∃ c, count = c + 1 := ⟨count - 1, by omega⟩
    rw [assignableCheckingCopy]
    simp only [Nat.add_zero] at hfail
    simp only [hfail, Bool.false_eq_true, reduceIte, writeRange, extract, Nat.add_zero]
  | succ k ih =>
    intro srcPos dstPos dstData count hk h hfail
    obtain ⟨c, rfl⟩ : ∃ c, count = c + 1 := ⟨count - 1, by omega⟩
    have h0 : elemAssignable asgn dstCT (srcData.getD srcPos default) = true := by
      have := h 0 (by omega)
      simpa using this
    rw [assignableCheckingCopy]
    simp only [h0, if_true]
    rw [ih (srcPos + 1) (dstPos + 1) _ c (by omega)
      (fun i hi => by
        have := h (i + 1) (by omega)
        simpa [Nat.add_assoc, Nat.add_comm 1 i] using this)
      (by
        have : srcPos + 1 + k = srcPos + (k + 1) := by omega
        rw [this]; exact hfail)]
    have : srcPos + 1 + k = srcPos + (k + 1) := by omega
    rw [this]
    rfl

/-! ### Unfolding lemmas for the copy engine -/

theorem System_arraycopy_decode (asgn : ClassT → ClassT → Bool) (heap : Heap)
    (srcH dstH : Nat) (srcCT : ClassT) (srcData : List Val) (dstCT : ClassT)
    (dstData : List Val) (srcPos dstPos count : Int)
    (hs : heap.getD srcH default = Obj.arr srcCT srcData)
    (hd : heap.getD dstH default = Obj.arr dstCT dstData) :
    System_arraycopy asgn heap (some srcH) srcPos (some dstH) dstPos count =
      (if srcPos < 0 ∨ dstPos < 0 ∨ count < 0 ∨
          srcPos > (srcData.length : Int) - count ∨
          dstPos > (dstData.length : Int) - count then
        ⟨some (CopyError.indexOutOfBounds srcData.length srcPos
          dstData.length dstPos count), heap⟩
      else
        arraycopyDispatch asgn heap srcH dstH srcCT srcData dstCT dstData
          srcPos dstPos count) := by
  unfold System_arraycopy
  dsimp only
  rw [hs]
  dsimp only
  rw [hd]

theorem arraycopyDispatch_same (asgn : ClassT → ClassT → Bool) (heap : Heap)
    (srcH dstH : Nat) (srcCT : ClassT) (srcData : List Val) (dstCT : ClassT)
    (dstData : List Val) (srcPos dstPos count : Int)
    (h : srcCT = dstCT) (hv : dstCT.primType ≠ PrimType.void) :
    arraycopyDispatch asgn heap srcH dstH srcCT srcData dstCT dstData
        srcPos dstPos count =
      ⟨none, memmoveHeap heap dstH dstCT dstData srcH srcData
        dstPos.toNat srcPos.toNat count.toNat⟩ := by
  simp only [arraycopyDispatch]
  rw [if_pos h]
  cases hp : dstCT.primType <;> first | rfl | exact absurd hp hv

theorem arraycopyDispatch_gate (asgn : ClassT → ClassT → Bool) (heap : Heap)
    (srcH dstH : Nat) (srcCT : ClassT) (srcData : List Val) (dstCT : ClassT)
    (dstData : List Val) (srcPos dstPos count : Int)
    (h : srcCT ≠ dstCT)
    (hg : dstCT.primType ≠ PrimType.not ∨ srcCT.IsPrimitive) :
    arraycopyDispatch asgn heap srcH dstH srcCT srcData dstCT dstData
        srcPos dstPos count =
      ⟨some (CopyError.arrayStoreIncompatible srcCT dstCT), heap⟩ := by
  simp only [arraycopyDispatch]
  rw [if_neg h, if_pos hg]

theorem arraycopyDispatch_memcpy (asgn : ClassT → ClassT → Bool) (heap : Heap)
    (srcH dstH : Nat) (srcCT : ClassT) (srcData : List Val) (dstCT : ClassT)
    (dstData : List Val) (srcPos dstPos count : Int)
    (h : srcCT ≠ dstCT)
    (hg : ¬(dstCT.primType ≠ PrimType.not ∨ srcCT.IsPrimitive))
    (ha : asgn dstCT srcCT = true) :
    arraycopyDispatch asgn heap srcH dstH srcCT srcData dstCT dstData
        srcPos dstPos count =
      ⟨none, heap.set dstH (Obj.arr dstCT
        (writeRange dstData dstPos.toNat
          (extract srcData srcPos.toNat count.toNat)))⟩ := by
  simp only [arraycopyDispatch]
  rw [if_neg h, if_neg hg, if_pos ha]

theorem arraycopyDispatch_checked (asgn : ClassT → ClassT → Bool) (heap : Heap)
    (srcH dstH : Nat) (srcCT : ClassT) (srcData : List Val) (dstCT : ClassT)
    (dstData : List Val) (srcPos dstPos count : Int)
    (h : srcCT ≠ dstCT)
    (hg : ¬(dstCT.primType ≠ PrimType.not ∨ srcCT.IsPrimitive))
    (ha : asgn dstCT srcCT = false) :
    arraycopyDispatch asgn heap srcH dstH srcCT srcData dstCT dstData
        srcPos dstPos count =
      ⟨(assignableCheckingCopy asgn dstCT srcData dstData
          srcPos.toNat dstPos.toNat count.toNat).2.map CopyError.arrayStoreElement,
        heap.set dstH (Obj.arr dstCT
          (assignableCheckingCopy asgn dstCT srcData dstData
            srcPos.toNat dstPos.toNat count.toNat).1)⟩ := by
  simp only [arraycopyDispatch]
  rw [if_neg h, if_neg hg, if_neg (by simp [ha])]

theorem arraycopyDispatch_void (asgn : ClassT → ClassT → Bool) (heap : Heap)
    (srcH dstH : Nat) (srcCT : ClassT) (srcData : List Val) (dstCT : ClassT)
    (dstData : List Val) (srcPos dstPos count : Int)
    (h : srcCT = dstCT) (hv : dstCT.primType = PrimType.void) :
    arraycopyDispatch asgn heap srcH dstH srcCT srcData dstCT dstData
        srcPos dstPos count =
      ⟨some CopyError.fatalUnreachable, heap⟩ := by
  simp only [arraycopyDispatch]
  rw [if_pos h, hv]

theorem assignableCheckingCopy_none (asgn : ClassT → ClassT → Bool)
    (dstCT : ClassT) (srcData : List Val) (k : Nat) :
    ∀ (srcPos dstPos : Nat) (dstData : List Val),
    (assignableCheckingCopy asgn dstCT srcData dstData srcPos dstPos k).2 = none →
    (assignableCheckingCopy asgn dstCT srcData dstData srcPos dstPos k).1 =
      writeRange dstData dstPos (extract srcData srcPos k) := by
  induction k with
  | zero => intro srcPos dstPos dstData _; rfl
  | succ k ih =>
    intro srcPos dstPos dstData h
    rw [assignableCheckingCopy] at h ⊢
    by_cases hv : elemAssignable asgn dstCT (srcData.getD srcPos default) = true
    · simp only [hv, if_true] at h ⊢
      rw [ih _ _ _ h]
      rfl
    · rw [if_neg hv] at h
      exact absurd h (by simp)

/-! ### The claims -/

/-- C6: `Copy` validates in a fixed order before touching any memory: a null
`src` fails first with a NullReference error naming `src`; then a null `dst`
fails with a NullReference error naming `dst`; then a non-array `src` fails
with a NotAnArray error naming "source" and its actual type; then a
non-array `dst` fails likewise naming "destination"; each of these failures
happens for every position triple, i.e. before the bounds check, and leaves
the heap unchanged. -/
theorem C6_validation_order (asgn : ClassT → ClassT → Bool) (heap : Heap)
    (javaSrc javaDst : Option Nat) (srcPos dstPos count : Int) :
    (javaSrc = none →
      System_arraycopy asgn heap javaSrc srcPos javaDst dstPos count =
        ⟨some (CopyError.nullPointer "src == null"), heap⟩) ∧
    (∀ srcH, javaSrc = some srcH → javaDst = none →
      System_arraycopy asgn heap javaSrc srcPos javaDst dstPos count =
        ⟨some (CopyError.nullPointer "dst == null"), heap⟩) ∧
    (∀ srcH dstH srcCls, javaSrc = some srcH → javaDst = some dstH →
      heap.getD srcH default = Obj.scalar srcCls →
      System_arraycopy asgn heap javaSrc srcPos javaDst dstPos count =
        ⟨some (CopyError.notAnArray "source" srcCls), heap⟩) ∧
    (∀ srcH dstH srcCT srcData dstCls, javaSrc = some srcH → javaDst = some dstH →
      heap.getD srcH default = Obj.arr srcCT srcData →
      heap.getD dstH default = Obj.scalar dstCls →
      System_arraycopy asgn heap javaSrc srcPos javaDst dstPos count =
        ⟨some (CopyError.notAnArray "destination" dstCls), heap⟩) := by
  refine ⟨?_, ?_, ?_, ?_⟩
  · intro h; subst h; rfl
  · intro srcH h1 h2; subst h1; subst h2; rfl
  · intro srcH dstH srcCls h1 h2 hsc
    subst h1; subst h2
    unfold System_arraycopy
    dsimp only
    rw [hsc]
  · intro srcH dstH srcCT srcData dstCls h1 h2 hsa hdc
    subst h1; subst h2
    unfold System_arraycopy
    dsimp only
    rw [hsa]
    dsimp only
    rw [hdc]

/-- C6 witness: concrete instances of each validation failure. -/
theorem C6_validation_order_witness :
    (System_arraycopy (fun _ _ => false) [Obj.scalar ⟨PrimType.not, 5⟩]
        none 0 (some 0) 0 1 =
      ⟨some (CopyError.nullPointer "src == null"), [Obj.scalar ⟨PrimType.not, 5⟩]⟩) ∧
    (System_arraycopy (fun _ _ => false) [Obj.scalar ⟨PrimType.not, 5⟩]
        (some 0) 0 (some 0) 0 1 =
      ⟨some (CopyError.notAnArray "source" ⟨PrimType.not, 5⟩),
        [Obj.scalar ⟨PrimType.not, 5⟩]⟩) :=
  ⟨(C6_validation_order (fun _ _ => false) [Obj.scalar ⟨PrimType.not, 5⟩]
      none (some 0) 0 0 1).1 rfl,
   (C6_validation_order (fun _ _ => false) [Obj.scalar ⟨PrimType.not, 5⟩]
      (some 0) (some 0) 0 0 1).2.2.1 0 0 ⟨PrimType.not, 5⟩ rfl rfl rfl⟩

/-- C4: for non-null array arguments, `Copy` fails with IndexOutOfBounds
exactly when one of the five bound conditions is violated; the failure
reports `srcLength, srcPos, dstLength, dstPos, count` verbatim and leaves
the heap (in particular the destination) unmodified; when all five
conditions hold, no IndexOutOfBounds failure of any shape is produced. -/
theorem C4_bounds_check (asgn : ClassT → ClassT → Bool) (heap : Heap)
    (srcH dstH : Nat) (srcCT : ClassT) (srcData : List Val) (dstCT : ClassT)
    (dstData : List Val) (srcPos dstPos count : Int)
    (hs : heap.getD srcH default = Obj.arr srcCT srcData)
    (hd : heap.getD dstH default = Obj.arr dstCT dstData) :
    (¬(0 ≤ srcPos ∧ 0 ≤ dstPos ∧ 0 ≤ count ∧
        srcPos ≤ (srcData.length : Int) - count ∧
        dstPos ≤ (dstData.length : Int) - count) →
      System_arraycopy asgn heap (some srcH) srcPos (some dstH) dstPos count =
        ⟨some (CopyError.indexOutOfBounds srcData.length srcPos
          dstData.length dstPos count), heap⟩) ∧
    ((0 ≤ srcPos ∧ 0 ≤ dstPos ∧ 0 ≤ count ∧
        srcPos ≤ (srcData.length : Int) - count ∧
        dstPos ≤ (dstData.length : Int) - count) →
      ∀ a b c d e,
        (System_arraycopy asgn heap (some srcH) srcPos (some dstH) dstPos
          count).error ≠ some (CopyError.indexOutOfBounds a b c d e)) := by
  rw [System_arraycopy_decode asgn heap srcH dstH srcCT srcData dstCT dstData
    srcPos dstPos count hs hd]
  constructor
  · intro h
    rw [if_pos (by omega)]
  · intro h a b c d e
    rw [if_neg (by omega)]
    by_cases hceq : srcCT = dstCT
    · by_cases hv : dstCT.primType = PrimType.void
      · rw [arraycopyDispatch_void asgn heap srcH dstH srcCT srcData dstCT
          dstData srcPos dstPos count hceq hv]
        simp
      · rw [arraycopyDispatch_same asgn heap srcH dstH srcCT srcData dstCT
          dstData srcPos dstPos count hceq hv]
        simp
    · by_cases hg : dstCT.primType ≠ PrimType.not ∨ srcCT.IsPrimitive
      · rw [arraycopyDispatch_gate asgn heap srcH dstH srcCT srcData dstCT
          dstData srcPos dstPos count hceq hg]
        simp
      · by_cases ha : asgn dstCT srcCT = true
        · rw [arraycopyDispatch_memcpy asgn heap srcH dstH srcCT srcData dstCT
            dstData srcPos dstPos count hceq hg ha]
          simp
        · rw [arraycopyDispatch_checked asgn heap srcH dstH srcCT srcData dstCT
            dstData srcPos dstPos count hceq hg (by simpa using ha)]
          cases (assignableCheckingCopy asgn dstCT srcData dstData
            srcPos.toNat dstPos.toNat count.toNat).2 <;> simp

/-- C4 witness: a concrete out-of-bounds call (count exceeds the source
length) fails with the exact IndexOutOfBounds diagnostic and leaves the
heap untouched; a concrete in-bounds call raises no IndexOutOfBounds. -/
theorem C4_bounds_check_witness :
    (System_arraycopy (fun _ _ => false)
        [Obj.arr ⟨PrimType.byte, 1⟩ [Val.vprim 1],
         Obj.arr ⟨PrimType.byte, 1⟩ [Val.vprim 2, Val.vprim 3]]
        (some 0) 0 (some 1) 0 2 =
      ⟨some (CopyError.indexOutOfBounds 1 0 2 0 2),
        [Obj.arr ⟨PrimType.byte, 1⟩ [Val.vprim 1],
         Obj.arr ⟨PrimType.byte, 1⟩ [Val.vprim 2, Val.vprim 3]]⟩) ∧
    ((System_arraycopy (fun _ _ => false)
        [Obj.arr ⟨PrimType.byte, 1⟩ [Val.vprim 1],
         Obj.arr ⟨PrimType.byte, 1⟩ [Val.vprim 2, Val.vprim 3]]
        (some 0) 0 (some 1) 0 1).error ≠
      some (CopyError.indexOutOfBounds 1 0 2 0 1)) :=
  ⟨(C4_bounds_check (fun _ _ => false)
      [Obj.arr ⟨PrimType.byte, 1⟩ [Val.vprim 1],
       Obj.arr ⟨PrimType.byte, 1⟩ [Val.vprim 2, Val.vprim 3]]
      0 1 ⟨PrimType.byte, 1⟩ [Val.vprim 1]
      ⟨PrimType.byte, 1⟩ [Val.vprim 2, Val.vprim 3] 0 0 2 rfl rfl).1
      (by decide),
   (C4_bounds_check (fun _ _ => false)
      [Obj.arr ⟨PrimType.byte, 1⟩ [Val.vprim 1],
       Obj.arr ⟨PrimType.byte, 1⟩ [Val.vprim 2, Val.vprim 3]]
      0 1 ⟨PrimType.byte, 1⟩ [Val.vprim 1]
      ⟨PrimType.byte, 1⟩ [Val.vprim 2, Val.vprim 3] 0 0 1 rfl rfl).2
      (by decide) 1 0 2 0 1⟩

/-- C2 counterexample: copying zero elements from an `int[]` into an
`Object[]` — a valid in-bounds call with `count = 0` — does not succeed: it
fails with the incompatible-types ArrayStoreException, because the
component-type gate runs even when `count = 0`. -/
theorem C2_count_zero_counterexample :
    (System_arraycopy (fun _ _ => false)
      [Obj.arr ⟨PrimType.int, 2⟩ [Val.vprim 7],
       Obj.arr ⟨PrimType.not, 0⟩ [Val.vnull]]
      (some 0) 0 (some 1) 0 0).error =
      some (CopyError.arrayStoreIncompatible ⟨PrimType.int, 2⟩ ⟨PrimType.not, 0⟩) := by
  decide

/-- C2 (amended): for non-null array arguments and valid positions with
`count = 0` passing the bounds check, `Copy` mutates nothing; it succeeds
when the two component types are identical (and a legal array component
type, i.e. not void) or when both are reference types, and it fails with
the ArrayStoreException-kind incompatible-types error — still mutating
nothing — when the component types differ and the destination is
primitive-typed or the source is primitive-typed. -/
theorem C2_count_zero (asgn : ClassT → ClassT → Bool) (heap : Heap)
    (srcH dstH : Nat) (srcCT : ClassT) (srcData : List Val) (dstCT : ClassT)
    (dstData : List Val) (srcPos dstPos : Int)
    (hs : heap.getD srcH default = Obj.arr srcCT srcData)
    (hd : heap.getD dstH default = Obj.arr dstCT dstData)
    (hsp : 0 ≤ srcPos) (hsp2 : srcPos ≤ (srcData.length : Int))
    (hdp : 0 ≤ dstPos) (hdp2 : dstPos ≤ (dstData.length : Int))
    (hv : srcCT = dstCT → dstCT.primType ≠ PrimType.void) :
    (System_arraycopy asgn heap (some srcH) srcPos (some dstH) dstPos 0).heap =
      heap ∧
    ((System_arraycopy asgn heap (some srcH) srcPos (some dstH) dstPos 0).error =
        none ↔
      (srcCT = dstCT ∨ (dstCT.primType = PrimType.not ∧ ¬srcCT.IsPrimitive))) ∧
    (srcCT ≠ dstCT →
      (dstCT.primType ≠ PrimType.not ∨ srcCT.IsPrimitive) →
      (System_arraycopy asgn heap (some srcH) srcPos (some dstH) dstPos 0).error =
        some (CopyError.arrayStoreIncompatible srcCT dstCT)) := by
  have hdlt : dstH < heap.length := getD_arr_lt heap dstH dstCT dstData hd
  rw [System_arraycopy_decode asgn heap srcH dstH srcCT srcData dstCT dstData
    srcPos dstPos 0 hs hd]
  rw [if_neg (by omega)]
  by_cases hceq : srcCT = dstCT
  · rw [arraycopyDispatch_same asgn heap srcH dstH srcCT srcData dstCT dstData
      srcPos dstPos 0 hceq (hv hceq)]
    refine ⟨?_, ?_, ?_⟩
    · simp only [memmoveHeap]
      by_cases hh : srcH = dstH
      · rw [if_pos hh, selfMemmove_eq]
        show heap.set dstH (Obj.arr dstCT (writeRange dstData _ (extract _ _ (0 : Int).toNat))) = heap
        rw [show (0 : Int).toNat = 0 from rfl, extract, writeRange, ← hd,
          set_getD_self heap dstH hdlt]
      · rw [if_neg hh]
        show heap.set dstH (Obj.arr dstCT (writeRange dstData _ (extract _ _ (0 : Int).toNat))) = heap
        rw [show (0 : Int).toNat = 0 from rfl, extract, writeRange, ← hd,
          set_getD_self heap dstH hdlt]
    · simp [hceq]
    · intro h _
      exact absurd hceq h
  · by_cases hg : dstCT.primType ≠ PrimType.not ∨ srcCT.IsPrimitive
    · rw [arraycopyDispatch_gate asgn heap srcH dstH srcCT srcData dstCT
        dstData srcPos dstPos 0 hceq hg]
      refine ⟨rfl, ?_, ?_⟩
      · simp only [Option.some_ne_none, false_iff]
        rintro (h | ⟨h1, h2⟩)
        · exact hceq h
        · rcases hg with hg | hg
          · exact hg h1
          · exact h2 hg
      · intro _ _
        rfl
    · have hdr : dstCT.primType = PrimType.not := by
        by_contra hc; exact hg (Or.inl hc)
      have hsr : ¬srcCT.IsPrimitive := fun hc => hg (Or.inr hc)
      by_cases ha : asgn dstCT srcCT = true
      · rw [arraycopyDispatch_memcpy asgn heap srcH dstH srcCT srcData dstCT
          dstData srcPos dstPos 0 hceq hg ha]
        refine ⟨?_, by simp [hdr, hsr], ?_⟩
        · show heap.set dstH (Obj.arr dstCT (writeRange dstData _ (extract _ _ (0 : Int).toNat))) = heap
          rw [show (0 : Int).toNat = 0 from rfl, extract, writeRange, ← hd,
            set_getD_self heap dstH hdlt]
        · intro _ hgate
          exact absurd hgate hg
      · rw [arraycopyDispatch_checked asgn heap srcH dstH srcCT srcData dstCT
          dstData srcPos dstPos 0 hceq hg (by simpa using ha)]
        refine ⟨?_, by simp [assignableCheckingCopy, hdr, hsr], ?_⟩
        · show heap.set dstH (Obj.arr dstCT (assignableCheckingCopy asgn dstCT
            srcData dstData srcPos.toNat dstPos.toNat (0 : Int).toNat).1) = heap
          rw [show (0 : Int).toNat = 0 from rfl]
          show heap.set dstH (Obj.arr dstCT dstData) = heap
          rw [← hd, set_getD_self heap dstH hdlt]
        · intro _ hgate
          exact absurd hgate hg

/-- C2 (amended) witness: a zero-count `int[] → Object[]` copy leaves the
heap unchanged, does not succeed, and fails with exactly the
incompatible-types ArrayStoreException-kind error. -/
theorem C2_count_zero_witness :
    ((System_arraycopy (fun _ _ => false)
        [Obj.arr ⟨PrimType.int, 2⟩ [Val.vprim 7],
         Obj.arr ⟨PrimType.not, 0⟩ [Val.vnull]]
        (some 0) 0 (some 1) 0 0).heap =
      [Obj.arr ⟨PrimType.int, 2⟩ [Val.vprim 7],
       Obj.arr ⟨PrimType.not, 0⟩ [Val.vnull]]) ∧
    ((System_arraycopy (fun _ _ => false)
        [Obj.arr ⟨PrimType.int, 2⟩ [Val.vprim 7],
         Obj.arr ⟨PrimType.not, 0⟩ [Val.vnull]]
        (some 0) 0 (some 1) 0 0).error = none ↔
      (⟨PrimType.int, 2⟩ : ClassT) = ⟨PrimType.not, 0⟩ ∨
        ((⟨PrimType.not, 0⟩ : ClassT).primType = PrimType.not ∧
          ¬(⟨PrimType.int, 2⟩ : ClassT).IsPrimitive)) ∧
    ((⟨PrimType.int, 2⟩ : ClassT) ≠ ⟨PrimType.not, 0⟩ →
      ((⟨PrimType.not, 0⟩ : ClassT).primType ≠ PrimType.not ∨
        (⟨PrimType.int, 2⟩ : ClassT).IsPrimitive) →
      (System_arraycopy (fun _ _ => false)
        [Obj.arr ⟨PrimType.int, 2⟩ [Val.vprim 7],
         Obj.arr ⟨PrimType.not, 0⟩ [Val.vnull]]
        (some 0) 0 (some 1) 0 0).error =
        some (CopyError.arrayStoreIncompatible ⟨PrimType.int, 2⟩
          ⟨PrimType.not, 0⟩)) :=
  C2_count_zero (fun _ _ => false)
    [Obj.arr ⟨PrimType.int, 2⟩ [Val.vprim 7],
     Obj.arr ⟨PrimType.not, 0⟩ [Val.vnull]]
    0 1 ⟨PrimType.int, 2⟩ [Val.vprim 7]
    ⟨PrimType.not, 0⟩ [Val.vnull] 0 0
    rfl rfl (by decide) (by decide) (by decide) (by decide) (by decide)

/-- C5: after validation passes, for arrays whose component types differ,
`Copy` fails with the ArrayStoreException-kind error reporting both types
exactly when `dstComponentPrimitiveType ≠ Reference ∨ srcComponentType.IsPrimitive`
holds — the exact (asymmetric) boolean gate of the source. -/
theorem C5_incompatible_gate (asgn : ClassT → ClassT → Bool) (heap : Heap)
    (srcH dstH : Nat) (srcCT : ClassT) (srcData : List Val) (dstCT : ClassT)
    (dstData : List Val) (srcPos dstPos count : Int)
    (hs : heap.getD srcH default = Obj.arr srcCT srcData)
    (hd : heap.getD dstH default = Obj.arr dstCT dstData)
    (hb : 0 ≤ srcPos ∧ 0 ≤ dstPos ∧ 0 ≤ count ∧
      srcPos ≤ (srcData.length : Int) - count ∧
      dstPos ≤ (dstData.length : Int) - count)
    (hne : srcCT ≠ dstCT) :
    (System_arraycopy asgn heap (some srcH) srcPos (some dstH) dstPos count =
      ⟨some (CopyError.arrayStoreIncompatible srcCT dstCT), heap⟩) ↔
    (dstCT.primType ≠ PrimType.not ∨ srcCT.IsPrimitive) := by
  rw [System_arraycopy_decode asgn heap srcH dstH srcCT srcData dstCT dstData
    srcPos dstPos count hs hd]
  rw [if_neg (by omega)]
  constructor
  · intro heq
    by_contra hg
    by_cases ha : asgn dstCT srcCT = true
    · rw [arraycopyDispatch_memcpy asgn heap srcH dstH srcCT srcData dstCT
        dstData srcPos dstPos count hne hg ha] at heq
      have := congrArg CopyOutcome.error heq
      simp at this
    · rw [arraycopyDispatch_checked asgn heap srcH dstH srcCT srcData dstCT
        dstData srcPos dstPos count hne hg (by simpa using ha)] at heq
      have := congrArg CopyOutcome.error heq
      cases (assignableCheckingCopy asgn dstCT srcData dstData
        srcPos.toNat dstPos.toNat count.toNat).2 <;> simp at this
  · intro hg
    exact arraycopyDispatch_gate asgn heap srcH dstH srcCT srcData dstCT
      dstData srcPos dstPos count hne hg

/-- C5 witness: a reference-typed source with a primitive-typed destination
is rejected at the gate (the asymmetric direction), via the gate condition
holding. -/
theorem C5_incompatible_gate_witness :
    System_arraycopy (fun _ _ => true)
        [Obj.arr ⟨PrimType.not, 0⟩ [Val.vnull],
         Obj.arr ⟨PrimType.int, 2⟩ [Val.vprim 0]]
        (some 0) 0 (some 1) 0 1 =
      ⟨some (CopyError.arrayStoreIncompatible ⟨PrimType.not, 0⟩ ⟨PrimType.int, 2⟩),
        [Obj.arr ⟨PrimType.not, 0⟩ [Val.vnull],
         Obj.arr ⟨PrimType.int, 2⟩ [Val.vprim 0]]⟩ :=
  (C5_incompatible_gate (fun _ _ => true)
    [Obj.arr ⟨PrimType.not, 0⟩ [Val.vnull],
     Obj.arr ⟨PrimType.int, 2⟩ [Val.vprim 0]]
    0 1 ⟨PrimType.not, 0⟩ [Val.vnull] ⟨PrimType.int, 2⟩ [Val.vprim 0]
    0 0 1 rfl rfl (by decide) (by decide)).2 (by decide)

/-- C7: when the component types differ, both are reference types, and the
destination's component type is assignable from the source's, `Copy`
succeeds with a bulk copy of all `count` elements — the result is exactly
the destination range overwritten from the source range, with no condition
on the individual elements' runtime types — and the source array is left
unchanged. -/
theorem C7_assignable_bulk_copy (asgn : ClassT → ClassT → Bool) (heap : Heap)
    (srcH dstH : Nat) (srcCT : ClassT) (srcData : List Val) (dstCT : ClassT)
    (dstData : List Val) (srcPos dstPos count : Int)
    (hs : heap.getD srcH default = Obj.arr srcCT srcData)
    (hd : heap.getD dstH default = Obj.arr dstCT dstData)
    (hb : 0 ≤ srcPos ∧ 0 ≤ dstPos ∧ 0 ≤ count ∧
      srcPos ≤ (srcData.length : Int) - count ∧
      dstPos ≤ (dstData.length : Int) - count)
    (hne : srcCT ≠ dstCT)
    (hdr : dstCT.primType = PrimType.not)
    (hsr : srcCT.primType = PrimType.not)
    (ha : asgn dstCT srcCT = true) :
    System_arraycopy asgn heap (some srcH) srcPos (some dstH) dstPos count =
      ⟨none, heap.set dstH (Obj.arr dstCT
        (writeRange dstData dstPos.toNat
          (extract srcData srcPos.toNat count.toNat)))⟩ ∧
    (System_arraycopy asgn heap (some srcH) srcPos (some dstH) dstPos
      count).heap.getD srcH default = Obj.arr srcCT srcData := by
  have hg : ¬(dstCT.primType ≠ PrimType.not ∨ srcCT.IsPrimitive) := by
    simp [ClassT.IsPrimitive, hdr, hsr]
  have hhne : srcH ≠ dstH := by
    intro hcontra
    rw [hcontra, hd] at hs
    exact hne (Obj.arr.inj hs).1.symm
  have hmain :
      System_arraycopy asgn heap (some srcH) srcPos (some dstH) dstPos count =
        ⟨none, heap.set dstH (Obj.arr dstCT
          (writeRange dstData dstPos.toNat
            (extract srcData srcPos.toNat count.toNat)))⟩ := by
    rw [System_arraycopy_decode asgn heap srcH dstH srcCT srcData dstCT dstData
      srcPos dstPos count hs hd]
    rw [if_neg (by omega)]
    exact arraycopyDispatch_memcpy asgn heap srcH dstH srcCT srcData dstCT
      dstData srcPos dstPos count hne hg ha
  refine ⟨hmain, ?_⟩
  rw [hmain]
  show (heap.set dstH _).getD srcH default = Obj.arr srcCT srcData
  rw [getD_set_ne_heap heap dstH srcH _ (Ne.symm hhne), hs]

/-- C7 witness: `Integer[] → Number[]` with an assignable component pair:
both elements are copied bulk and the source is untouched. -/
theorem C7_assignable_bulk_copy_witness :
    System_arraycopy (fun d s => d.classId == 10 && s.classId == 11)
        [Obj.arr ⟨PrimType.not, 11⟩ [Val.vobj ⟨PrimType.not, 11⟩ 0,
          Val.vobj ⟨PrimType.not, 11⟩ 1],
         Obj.arr ⟨PrimType.not, 10⟩ [Val.vnull, Val.vnull]]
        (some 0) 0 (some 1) 0 2 =
      ⟨none,
        [Obj.arr ⟨PrimType.not, 11⟩ [Val.vobj ⟨PrimType.not, 11⟩ 0,
          Val.vobj ⟨PrimType.not, 11⟩ 1],
         Obj.arr ⟨PrimType.not, 10⟩ [Val.vobj ⟨PrimType.not, 11⟩ 0,
          Val.vobj ⟨PrimType.not, 11⟩ 1]]⟩ :=
  ((C7_assignable_bulk_copy (fun d s => d.classId == 10 && s.classId == 11)
    [Obj.arr ⟨PrimType.not, 11⟩ [Val.vobj ⟨PrimType.not, 11⟩ 0,
      Val.vobj ⟨PrimType.not, 11⟩ 1],
     Obj.arr ⟨PrimType.not, 10⟩ [Val.vnull, Val.vnull]]
    0 1 ⟨PrimType.not, 11⟩
    [Val.vobj ⟨PrimType.not, 11⟩ 0, Val.vobj ⟨PrimType.not, 11⟩ 1]
    ⟨PrimType.not, 10⟩ [Val.vnull, Val.vnull] 0 0 2
    rfl rfl (by decide) (by decide) (by decide) (by decide) (by decide)).1).trans
    (by decide)

/-- C1: in the element-wise checked branch (types differ, both reference,
destination not assignable from source), if the first `k` source elements
pass the per-element store check and element `k` is an object whose concrete
class is not assignable to the destination component type, the copy stops at
`k`: the outcome is the ArrayStoreException-kind error naming that concrete
class, the destination holds exactly the first `k` elements copied in index
order (no rollback), and every destination slot outside
`[dstPos, dstPos + k)` — in particular at and after the failing index — is
untouched. -/
theorem C1_checked_partial_copy (asgn : ClassT → ClassT → Bool) (heap : Heap)
    (srcH dstH : Nat) (srcCT : ClassT) (srcData : List Val) (dstCT : ClassT)
    (dstData : List Val) (srcPos dstPos count : Int)
    (hs : heap.getD srcH default = Obj.arr srcCT srcData)
    (hd : heap.getD dstH default = Obj.arr dstCT dstData)
    (hb : 0 ≤ srcPos ∧ 0 ≤ dstPos ∧ 0 ≤ count ∧
      srcPos ≤ (srcData.length : Int) - count ∧
      dstPos ≤ (dstData.length : Int) - count)
    (hne : srcCT ≠ dstCT)
    (hdr : dstCT.primType = PrimType.not)
    (hsr : srcCT.primType = PrimType.not)
    (ha : asgn dstCT srcCT = false)
    (k : Nat) (hk : (k : Int) < count)
    (hpass : ∀ i < k,
      elemAssignable asgn dstCT (srcData.getD (srcPos.toNat + i) default) = true)
    (cls : ClassT) (ident : Nat)
    (helem : srcData.getD (srcPos.toNat + k) default = Val.vobj cls ident)
    (hfail : asgn dstCT cls = false) :
    System_arraycopy asgn heap (some srcH) srcPos (some dstH) dstPos count =
      ⟨some (CopyError.arrayStoreElement cls),
        heap.set dstH (Obj.arr dstCT
          (writeRange dstData dstPos.toNat (extract srcData srcPos.toNat k)))⟩ ∧
    (∀ j, j < dstPos.toNat ∨ dstPos.toNat + k ≤ j →
      (writeRange dstData dstPos.toNat
        (extract srcData srcPos.toNat k)).getD j default =
        dstData.getD j default) := by
  have hg : ¬(dstCT.primType ≠ PrimType.not ∨ srcCT.IsPrimitive) := by
    simp [ClassT.IsPrimitive, hdr, hsr]
  constructor
  · rw [System_arraycopy_decode asgn heap srcH dstH srcCT srcData dstCT dstData
      srcPos dstPos count hs hd]
    rw [if_neg (by omega)]
    rw [arraycopyDispatch_checked asgn heap srcH dstH srcCT srcData dstCT
      dstData srcPos dstPos count hne hg ha]
    rw [assignableCheckingCopy_fail asgn dstCT srcData k srcPos.toNat
      dstPos.toNat dstData count.toNat (by omega) hpass
      (by rw [helem]; simp [elemAssignable, hfail])]
    rw [helem]
    rfl
  · intro j hj
    exact getD_writeRange_outside _ _ _ _
      (by rw [length_extract]; omega)

/-- C1 witness: the spec's example — `Object[] {Integer, Integer, String,
Integer}` copied into a `Number[]` of length 4: the two `Integer`s land in
slots 0 and 1, the copy stops at index 2, the error names the `String`
class, and slots 2 and 3 keep their old contents. -/
theorem C1_checked_partial_copy_witness :
    System_arraycopy
        (fun d s => d.classId == 10 && s.classId == 11)
        [Obj.arr ⟨PrimType.not, 20⟩
          [Val.vobj ⟨PrimType.not, 11⟩ 0, Val.vobj ⟨PrimType.not, 11⟩ 1,
           Val.vobj ⟨PrimType.not, 12⟩ 2, Val.vobj ⟨PrimType.not, 11⟩ 3],
         Obj.arr ⟨PrimType.not, 10⟩ [Val.vnull, Val.vnull, Val.vnull, Val.vnull]]
        (some 0) 0 (some 1) 0 4 =
      ⟨some (CopyError.arrayStoreElement ⟨PrimType.not, 12⟩),
        [Obj.arr ⟨PrimType.not, 20⟩
          [Val.vobj ⟨PrimType.not, 11⟩ 0, Val.vobj ⟨PrimType.not, 11⟩ 1,
           Val.vobj ⟨PrimType.not, 12⟩ 2, Val.vobj ⟨PrimType.not, 11⟩ 3],
         Obj.arr ⟨PrimType.not, 10⟩
          [Val.vobj ⟨PrimType.not, 11⟩ 0, Val.vobj ⟨PrimType.not, 11⟩ 1,
           Val.vnull, Val.vnull]]⟩ :=
  ((C1_checked_partial_copy (fun d s => d.classId == 10 && s.classId == 11)
    [Obj.arr ⟨PrimType.not, 20⟩
      [Val.vobj ⟨PrimType.not, 11⟩ 0, Val.vobj ⟨PrimType.not, 11⟩ 1,
       Val.vobj ⟨PrimType.not, 12⟩ 2, Val.vobj ⟨PrimType.not, 11⟩ 3],
     Obj.arr ⟨PrimType.not, 10⟩ [Val.vnull, Val.vnull, Val.vnull, Val.vnull]]
    0 1 ⟨PrimType.not, 20⟩
    [Val.vobj ⟨PrimType.not, 11⟩ 0, Val.vobj ⟨PrimType.not, 11⟩ 1,
     Val.vobj ⟨PrimType.not, 12⟩ 2, Val.vobj ⟨PrimType.not, 11⟩ 3]
    ⟨PrimType.not, 10⟩ [Val.vnull, Val.vnull, Val.vnull, Val.vnull]
    0 0 4 rfl rfl (by decide) (by decide) (by decide) (by decide) (by decide)
    2 (by decide) (by decide) ⟨PrimType.not, 12⟩ 2 (by decide)
    (by decide)).1).trans (by decide)

/-- C3: copying an array onto itself at any in-bounds (possibly
overlapping) positions succeeds and produces exactly the contents obtained
by copying the `count` source elements through an independent temporary
buffer — move semantics — for every component type (any element size, or
reference). -/
theorem C3_self_copy_overlap (asgn : ClassT → ClassT → Bool) (heap : Heap)
    (h : Nat) (ct : ClassT) (data : List Val) (srcPos dstPos count : Int)
    (hh : heap.getD h default = Obj.arr ct data)
    (hv : ct.primType ≠ PrimType.void)
    (hb : 0 ≤ srcPos ∧ 0 ≤ dstPos ∧ 0 ≤ count ∧
      srcPos ≤ (data.length : Int) - count ∧
      dstPos ≤ (data.length : Int) - count) :
    System_arraycopy asgn heap (some h) srcPos (some h) dstPos count =
      ⟨none, heap.set h (Obj.arr ct
        (tempBufferSelfCopy data srcPos.toNat dstPos.toNat count.toNat))⟩ := by
  rw [System_arraycopy_decode asgn heap h h ct data ct data srcPos dstPos
    count hh hh]
  rw [if_neg (by omega)]
  rw [arraycopyDispatch_same asgn heap h h ct data ct data srcPos dstPos count
    rfl hv]
  simp only [memmoveHeap, if_pos rfl, selfMemmove_eq]
  rfl

/-- C3 witness: the spec's example — `byte[] {1,2,3,4,5}` copied into
itself at `(srcPos, dstPos, count) = (1, 3, 2)` yields `{1,2,3,2,3}`. -/
theorem C3_self_copy_overlap_witness :
    System_arraycopy (fun _ _ => false)
        [Obj.arr ⟨PrimType.byte, 1⟩
          [Val.vprim 1, Val.vprim 2, Val.vprim 3, Val.vprim 4, Val.vprim 5]]
        (some 0) 1 (some 0) 3 2 =
      ⟨none, [Obj.arr ⟨PrimType.byte, 1⟩
        [Val.vprim 1, Val.vprim 2, Val.vprim 3, Val.vprim 2, Val.vprim 3]]⟩ :=
  (C3_self_copy_overlap (fun _ _ => false)
    [Obj.arr ⟨PrimType.byte, 1⟩
      [Val.vprim 1, Val.vprim 2, Val.vprim 3, Val.vprim 4, Val.vprim 5]]
    0 ⟨PrimType.byte, 1⟩
    [Val.vprim 1, Val.vprim 2, Val.vprim 3, Val.vprim 4, Val.vprim 5]
    1 3 2 rfl (by decide) (by decide)).trans (by decide)

/-- C8: under the caller-guaranteed preconditions of the unchecked fast
path (both handles denote arrays of the same primitive component type,
`count ≥ 0`, positions in bounds), `CopyUnchecked` produces exactly the
final heap of the checked `Copy` on the same arguments, and that `Copy`
raises no error: the unchecked path is the same overlap-safe bulk move as
the same-component-type branch. -/
theorem C8_unchecked_refines_copy (asgn : ClassT → ClassT → Bool) (heap : Heap)
    (srcH dstH : Nat) (ct : ClassT) (srcData dstData : List Val)
    (srcPos dstPos count : Int)
    (hs : heap.getD srcH default = Obj.arr ct srcData)
    (hd : heap.getD dstH default = Obj.arr ct dstData)
    (_hprim : ct.IsPrimitive)
    (hv : ct.primType ≠ PrimType.void)
    (hb : 0 ≤ srcPos ∧ 0 ≤ dstPos ∧ 0 ≤ count ∧
      srcPos ≤ (srcData.length : Int) - count ∧
      dstPos ≤ (dstData.length : Int) - count) :
    System_arraycopyTUnchecked heap srcH srcPos dstH dstPos count =
      (System_arraycopy asgn heap (some srcH) srcPos (some dstH) dstPos
        count).heap ∧
    (System_arraycopy asgn heap (some srcH) srcPos (some dstH) dstPos
      count).error = none := by
  rw [System_arraycopy_decode asgn heap srcH dstH ct srcData ct dstData
    srcPos dstPos count hs hd]
  rw [if_neg (by omega)]
  rw [arraycopyDispatch_same asgn heap srcH dstH ct srcData ct dstData
    srcPos dstPos count rfl hv]
  refine ⟨?_, rfl⟩
  unfold System_arraycopyTUnchecked
  rw [hs]
  dsimp only
  rw [hd]

/-- C8 witness: a concrete short-array instance where the unchecked path
and the checked path agree. -/
theorem C8_unchecked_refines_copy_witness :
    (System_arraycopyTUnchecked
        [Obj.arr ⟨PrimType.short, 3⟩ [Val.vprim 9, Val.vprim 8],
         Obj.arr ⟨PrimType.short, 3⟩ [Val.vprim 0, Val.vprim 0]]
        0 0 1 1 1 =
      (System_arraycopy (fun _ _ => false)
        [Obj.arr ⟨PrimType.short, 3⟩ [Val.vprim 9, Val.vprim 8],
         Obj.arr ⟨PrimType.short, 3⟩ [Val.vprim 0, Val.vprim 0]]
        (some 0) 0 (some 1) 1 1).heap) ∧
    (System_arraycopy (fun _ _ => false)
      [Obj.arr ⟨PrimType.short, 3⟩ [Val.vprim 9, Val.vprim 8],
       Obj.arr ⟨PrimType.short, 3⟩ [Val.vprim 0, Val.vprim 0]]
      (some 0) 0 (some 1) 1 1).error = none :=
  C8_unchecked_refines_copy (fun _ _ => false)
    [Obj.arr ⟨PrimType.short, 3⟩ [Val.vprim 9, Val.vprim 8],
     Obj.arr ⟨PrimType.short, 3⟩ [Val.vprim 0, Val.vprim 0]]
    0 1 ⟨PrimType.short, 3⟩ [Val.vprim 9, Val.vprim 8]
    [Val.vprim 0, Val.vprim 0] 0 1 1 rfl rfl (by decide) (by decide)
    (by decide)

/-- C9: for every negative requested length, `CreateReferenceArray` fails
with NegativeArraySize reporting the requested value; the result is
independent of the type registry and allocator (no resolution, no
allocation is consulted), which also shows the negative-length check comes
first. -/
theorem C9_negative_length (f g : ClassT → Option ClassT)
    (a b : ClassT → Nat → Obj) (T : ClassT) (len : Int) (h : len < 0) :
    Array_createObjectArray f a T len = CreateResult.negativeSize len ∧
    Array_createObjectArray f a T len = Array_createObjectArray g b T len := by
  unfold Array_createObjectArray
  rw [if_pos h, if_pos h]
  exact ⟨rfl, rfl⟩

/-- C9 witness: `CreateReferenceArray(T, -1)` fails with NegativeArraySize
for a registry that would resolve and an allocator that would allocate. -/
theorem C9_negative_length_witness :
    Array_createObjectArray (fun c => some c) (fun c _ => Obj.arr c [])
      ⟨PrimType.not, 7⟩ (-1) = CreateResult.negativeSize (-1) :=
  (C9_negative_length (fun c => some c) (fun _ => none)
    (fun c _ => Obj.arr c []) (fun c _ => Obj.scalar c)
    ⟨PrimType.not, 7⟩ (-1) (by decide)).1

/-- C10: every successful `Copy` between two distinct array objects only
writes the destination range: the final heap is the original with just the
destination array replaced, the source array (read through the final heap)
is completely unchanged, the destination keeps its length, and every
destination slot outside `[dstPos, dstPos + count)` holds its old value. -/
theorem C10_frame_effect (asgn : ClassT → ClassT → Bool) (heap : Heap)
    (srcH dstH : Nat) (srcCT : ClassT) (srcData : List Val) (dstCT : ClassT)
    (dstData : List Val) (srcPos dstPos count : Int)
    (hs : heap.getD srcH default = Obj.arr srcCT srcData)
    (hd : heap.getD dstH default = Obj.arr dstCT dstData)
    (hne : srcH ≠ dstH)
    (hsucc : (System_arraycopy asgn heap (some srcH) srcPos (some dstH)
      dstPos count).error = none) :
    ∃ newData,
      System_arraycopy asgn heap (some srcH) srcPos (some dstH) dstPos count =
        ⟨none, heap.set dstH (Obj.arr dstCT newData)⟩ ∧
      (heap.set dstH (Obj.arr dstCT newData)).getD srcH default =
        Obj.arr srcCT srcData ∧
      newData.length = dstData.length ∧
      (∀ j, j < dstPos.toNat ∨ dstPos.toNat + count.toNat ≤ j →
        newData.getD j default = dstData.getD j default) := by
  rw [System_arraycopy_decode asgn heap srcH dstH srcCT srcData dstCT dstData
    srcPos dstPos count hs hd] at hsucc ⊢
  by_cases hbov : srcPos < 0 ∨ dstPos < 0 ∨ count < 0 ∨
      srcPos > (srcData.length : Int) - count ∨
      dstPos > (dstData.length : Int) - count
  · rw [if_pos hbov] at hsucc
    simp at hsucc
  · rw [if_neg hbov] at hsucc ⊢
    by_cases hceq : srcCT = dstCT
    · by_cases hv : dstCT.primType = PrimType.void
      · rw [arraycopyDispatch_void asgn heap srcH dstH srcCT srcData dstCT
          dstData srcPos dstPos count hceq hv] at hsucc
        simp at hsucc
      · rw [arraycopyDispatch_same asgn heap srcH dstH srcCT srcData dstCT
          dstData srcPos dstPos count hceq hv]
        refine ⟨writeRange dstData dstPos.toNat
          (extract srcData srcPos.toNat count.toNat), ?_, ?_, ?_, ?_⟩
        · simp only [memmoveHeap, if_neg hne]
        · rw [getD_set_ne_heap heap dstH srcH _ (Ne.symm hne)]
          exact hs
        · exact length_writeRange _ _ _
        · intro j hj
          exact getD_writeRange_outside _ _ _ _ (by rw [length_extract]; omega)
    · by_cases hg : dstCT.primType ≠ PrimType.not ∨ srcCT.IsPrimitive
      · rw [arraycopyDispatch_gate asgn heap srcH dstH srcCT srcData dstCT
          dstData srcPos dstPos count hceq hg] at hsucc
        simp at hsucc
      · by_cases ha : asgn dstCT srcCT = true
        · rw [arraycopyDispatch_memcpy asgn heap srcH dstH srcCT srcData dstCT
            dstData srcPos dstPos count hceq hg ha]
          refine ⟨writeRange dstData dstPos.toNat
            (extract srcData srcPos.toNat count.toNat), rfl, ?_, ?_, ?_⟩
          · rw [getD_set_ne_heap heap dstH srcH _ (Ne.symm hne)]
            exact hs
          · exact length_writeRange _ _ _
          · intro j hj
            exact getD_writeRange_outside _ _ _ _ (by rw [length_extract]; omega)
        · rw [arraycopyDispatch_checked asgn heap srcH dstH srcCT srcData dstCT
            dstData srcPos dstPos count hceq hg (by simpa using ha)] at hsucc ⊢
          have hnone : (assignableCheckingCopy asgn dstCT srcData dstData
              srcPos.toNat dstPos.toNat count.toNat).2 = none := by
            simpa using hsucc
          have hchar := assignableCheckingCopy_none asgn dstCT srcData
            count.toNat srcPos.toNat dstPos.toNat dstData hnone
          refine ⟨(assignableCheckingCopy asgn dstCT srcData dstData
            srcPos.toNat dstPos.toNat count.toNat).1, ?_, ?_, ?_, ?_⟩
          · rw [hnone]
            rfl
          · rw [getD_set_ne_heap heap dstH srcH _ (Ne.symm hne)]
            exact hs
          · rw [hchar]
            exact length_writeRange _ _ _
          · intro j hj
            rw [hchar]
            exact getD_writeRange_outside _ _ _ _ (by rw [length_extract]; omega)

/-- C10 witness: a successful two-element copy into the middle of a
four-element destination leaves the source and the outside destination
slots unchanged. -/
theorem C10_frame_effect_witness :
    ((System_arraycopy (fun _ _ => false)
        [Obj.arr ⟨PrimType.int, 2⟩ [Val.vprim 7, Val.vprim 8],
         Obj.arr ⟨PrimType.int, 2⟩
           [Val.vprim 1, Val.vprim 2, Val.vprim 3, Val.vprim 4]]
        (some 0) 0 (some 1) 1 2).error = none) ∧
    (∃ newData,
      System_arraycopy (fun _ _ => false)
          [Obj.arr ⟨PrimType.int, 2⟩ [Val.vprim 7, Val.vprim 8],
           Obj.arr ⟨PrimType.int, 2⟩
             [Val.vprim 1, Val.vprim 2, Val.vprim 3, Val.vprim 4]]
          (some 0) 0 (some 1) 1 2 =
        ⟨none, ([Obj.arr ⟨PrimType.int, 2⟩ [Val.vprim 7, Val.vprim 8],
           Obj.arr ⟨PrimType.int, 2⟩
             [Val.vprim 1, Val.vprim 2, Val.vprim 3, Val.vprim 4]] : Heap).set 1
          (Obj.arr ⟨PrimType.int, 2⟩ newData)⟩ ∧
      (([Obj.arr ⟨PrimType.int, 2⟩ [Val.vprim 7, Val.vprim 8],
         Obj.arr ⟨PrimType.int, 2⟩
           [Val.vprim 1, Val.vprim 2, Val.vprim 3, Val.vprim 4]] : Heap).set 1
          (Obj.arr ⟨PrimType.int, 2⟩ newData)).getD 0 default =
        Obj.arr ⟨PrimType.int, 2⟩ [Val.vprim 7, Val.vprim 8] ∧
      newData.length =
        ([Val.vprim 1, Val.vprim 2, Val.vprim 3, Val.vprim 4] : List Val).length ∧
      (∀ j, j < (1 : Int).toNat ∨ (1 : Int).toNat + (2 : Int).toNat ≤ j →
        newData.getD j default =
          ([Val.vprim 1, Val.vprim 2, Val.vprim 3,
            Val.vprim 4] : List Val).getD j default)) :=
  ⟨by decide,
   C10_frame_effect (fun _ _ => false)
    [Obj.arr ⟨PrimType.int, 2⟩ [Val.vprim 7, Val.vprim 8],
     Obj.arr ⟨PrimType.int, 2⟩
       [Val.vprim 1, Val.vprim 2, Val.vprim 3, Val.vprim 4]]
    0 1 ⟨PrimType.int, 2⟩ [Val.vprim 7, Val.vprim 8] ⟨PrimType.int, 2⟩
    [Val.vprim 1, Val.vprim 2, Val.vprim 3, Val.vprim 4] 0 1 2
    rfl rfl (by decide) (by decide)⟩

end ArtArrayCopy
